import Mathlib

/-!
Verification development for the meal-planner backend (Flask + pydantic +
SQLAlchemy).  The definitions below are a shallow embedding of the
authentication / profile-update subsystem:

* `backend/app/models/entities.py` — the `User` entity and
  `User.update_password` (bcrypt hashing);
* `backend/app/schemas/user_schemas.py` — the pydantic schemas
  `UserRegisterSchema`, `UserUpdateSchema`, `UserResponseSchema`,
  `PasswordChangeSchema` and their field validators;
* `backend/app/blueprints/users/routes.py` — the route handlers
  `get_current_user`, `update_current_user`, `change_password`;
* `backend/app/__init__.py` — `handle_validation_error` (the 422 shape).

Modelling conventions:

* A JSON field of a request body is `Option (Option String)`: `none` is an
  absent key, `some none` is an explicit JSON `null`, `some (some s)` is the
  string value `s`.  Pydantic treats `null` for an `Optional[...]` field the
  same as an absent key: both become Python `None`.
* bcrypt: a hash is modelled as the pair (salt, digest) where the digest is
  an idealised injective one-way image of the plaintext; `bcrypt.gensalt()`
  draws a fresh salt, modelled by passing the salt as an explicit parameter.
* `datetime.utcnow()` timestamps are `Nat` parameters (`now`).
* SQLAlchemy's flush emits an UPDATE (and hence refreshes the
  `onupdate=datetime.utcnow` column `updatedAt`) only when some attribute
  has a net change; assigning a value equal to the stored one is a no-op.
-/

namespace MealPlanner

/-! ## String primitives (Python `str` methods used by the code) -/

/-- Python `str.upper` on one character, restricted to ASCII (the values the
schemas feed it are 2-letter country codes). -/
def pyUpperChar (c : Char) : Char :=
  if 97 ≤ c.toNat ∧ c.toNat ≤ 122 then Char.ofNat (c.toNat - 32) else c

/-- Python `str.upper` (ASCII fragment). -/
def pyUpper (s : String) : String :=
  String.mk (s.data.map pyUpperChar)

/-- Python `any(char.isdigit() for char in v)`. -/
def hasDigit (s : String) : Bool :=
  s.data.any Char.isDigit

/-- Python `any(char.isalpha() for char in v)`. -/
def hasAlpha (s : String) : Bool :=
  s.data.any Char.isAlpha

/-- Membership in the username alphabet of `UserRegisterSchema.username_valid_chars`:
letters, digits, underscore and hyphen. -/
def usernameChar (c : Char) : Bool :=
  c.isAlpha || c.isDigit || c == '_' || c == '-'

/-- Python `len(s)` as used by the pydantic length bounds. -/
def pyLen (s : String) : Nat :=
  s.data.length

/-! ## bcrypt model -/

/-- A bcrypt hash: the salt drawn at hashing time together with an idealised
one-way digest of the plaintext.  (`bcrypt` stores the salt inside the hash
string; `checkpw` re-hashes with that embedded salt and compares.) -/
structure BcryptHash where
  salt : Nat
  digest : String
deriving DecidableEq, Repr

/-- Model of `bcrypt.hashpw(pw, salt)`. -/
def hashpw (pw : String) (salt : Nat) : BcryptHash :=
  ⟨salt, pw⟩

/-- Model of `bcrypt.checkpw(pw, stored)`: re-hash `pw` with the salt embedded
in `stored` and compare. -/
def checkpw (pw : String) (stored : BcryptHash) : Bool :=
  hashpw pw stored.salt == stored

/-! ## The `User` entity (`entities.py`) -/

/-- The `USER` row: identity, credential hash, the nine profile fields and
the two timestamps (timestamps as abstract `Nat` instants). -/
structure User where
  id : Nat
  email : String
  username : String
  password_hash : BcryptHash
  fullName : String
  sex : String
  phoneNumber : Option String
  addressLine1 : String
  addressLine2 : Option String
  city : String
  stateProvinceCode : String
  countryCode : String
  postalCode : String
  createdAt : Nat
  updatedAt : Nat
deriving DecidableEq, Repr

/-- `User.update_password`: re-hash the new plaintext with a freshly drawn
salt (`bcrypt.gensalt()` modelled by the explicit `salt` argument) and store
the result in `password_hash`. -/
def User.update_password (u : User) (new_password : String) (salt : Nat) : User :=
  { u with password_hash := hashpw new_password salt }

/-- Modelled from the spec: `AuthService.verify_password` lives in
`app/services/auth_service.py`, which is not among the provided sources; per
§4.1/§4.3 it is a thin delegation to the hasher's verify primitive:
true iff the plaintext hashed with the salt embedded in the stored hash
matches the stored hash. -/
def verify_password (u : User) (plaintext : String) : Bool :=
  checkpw plaintext u.password_hash

/-! ## Login (`AuthService.login`, modelled from the spec) -/

/-- An authentication error as observed by the caller: HTTP status plus
message body. -/
structure AuthErr where
  status : Nat
  message : String
deriving DecidableEq, Repr

/-- The single uniform login failure of §4.3. -/
def invalidCredentials : AuthErr :=
  ⟨401, "Invalid credentials"⟩

/-- Modelled from the spec: `AuthService.login` lives in
`app/services/auth_service.py`, which is not among the provided sources; per
§4.3 the lookup tries the identifier as email or username, and when no record
matches, or the password fails verification, it returns the single uniform
`INVALID_CREDENTIALS` error. -/
def login (store : List User) (identifier plaintext : String) :
    Except AuthErr User :=
  match store.find? (fun u => u.email == identifier || u.username == identifier) with
  | none => .error invalidCredentials
  | some u =>
    if checkpw plaintext u.password_hash then .ok u
    else .error invalidCredentials

/-! ## Pydantic schemas (`user_schemas.py`)

A request-body field is `Option (Option String)`: absent / JSON null /
string value.  Validation checks every field and collects the errors of all
of them (pydantic reports every failing field, in declaration order); a
field-level `@validator` only runs once the field's own constraints passed,
and a `raise ValueError` inside it contributes a single message. -/

/-- A raw JSON value for one body field. -/
abbrev JField := Option (Option String)

/-- One entry of pydantic's `e.errors()` list: the failing field and the
reason. -/
structure FieldError where
  field : String
  msg : String
deriving DecidableEq, Repr

/-- The value pydantic binds for an `Optional [...]` field: absent and JSON
null both become Python `None`. -/
def fieldVal : JField → Option String
  | none => none
  | some none => none
  | some (some s) => some s

/-- The value bound for a required string field (only consulted on payloads
with no validation errors, where the field is present). -/
def reqVal (v : JField) : String :=
  (fieldVal v).getD ""

/-- Length-bound errors for a string value (`min_length` / `max_length` of a
pydantic `Field`); at most one of the two bounds can fail. -/
def lenErrs (name : String) (lo : Nat) (hi : Option Nat) (s : String) : List FieldError :=
  if pyLen s < lo then [⟨name, s!"String should have at least {lo} characters"⟩]
  else
    match hi with
    | some h => if h < pyLen s then [⟨name, s!"String should have at most {h} characters"⟩] else []
    | none => []

/-- Validation of an `Optional[str]` field with length bounds: absent and
null are fine (the field becomes `None`), a string is length-checked. -/
def checkOptStr (name : String) (lo : Nat) (hi : Option Nat) : JField → List FieldError
  | none => []
  | some none => []
  | some (some s) => lenErrs name lo hi s

/-- Validation of a required `str` field with length bounds. -/
def checkReqStr (name : String) (lo : Nat) (hi : Option Nat) : JField → List FieldError
  | none => [⟨name, "Field required"⟩]
  | some none => [⟨name, "Input should be a valid string"⟩]
  | some (some s) => lenErrs name lo hi s

/-- Membership test for the `SexEnum` values. -/
def sexOk (s : String) : Bool :=
  s == "MALE" || s == "FEMALE" || s == "OTHER"

/-- Validation of the optional `sex : Optional[SexEnum]` field of
`UserUpdateSchema`. -/
def checkOptSex (name : String) : JField → List FieldError
  | none => []
  | some none => []
  | some (some s) =>
    if sexOk s then [] else [⟨name, "Input should be MALE, FEMALE or OTHER"⟩]

/-- Validation of the required `sex : SexEnum` field of `UserRegisterSchema`. -/
def checkReqSex (name : String) : JField → List FieldError
  | none => [⟨name, "Field required"⟩]
  | some none => [⟨name, "Input should be MALE, FEMALE or OTHER"⟩]
  | some (some s) =>
    if sexOk s then [] else [⟨name, "Input should be MALE, FEMALE or OTHER"⟩]

/-- The `password_strength` validator shared by `UserRegisterSchema.password`
and `PasswordChangeSchema.newPassword`: `raise` on the first failing check,
so at most one message is produced. -/
def passwordStrengthErrs (name : String) (s : String) : List FieldError :=
  if ¬ hasDigit s then [⟨name, "Value error, Password must contain at least one digit"⟩]
  else if ¬ hasAlpha s then [⟨name, "Value error, Password must contain at least one letter"⟩]
  else []

/-- A password field: required, `min_length=8`, then the strength validator
(which only runs when the length bound passed). -/
def checkPassword (name : String) : JField → List FieldError
  | none => [⟨name, "Field required"⟩]
  | some none => [⟨name, "Input should be a valid string"⟩]
  | some (some s) =>
    if lenErrs name 8 none s = [] then passwordStrengthErrs name s
    else lenErrs name 8 none s

/-- The `username` field: required, `min_length=3, max_length=100`, then the
`username_valid_chars` validator restricting to letters / digits /
underscore / hyphen. -/
def checkUsername : JField → List FieldError
  | none => [⟨"username", "Field required"⟩]
  | some none => [⟨"username", "Input should be a valid string"⟩]
  | some (some s) =>
    if lenErrs "username" 3 (some 100) s = [] then
      if s.data.all usernameChar then []
      else [⟨"username", "Value error, Username must contain only letters, numbers, underscores, and hyphens"⟩]
    else lenErrs "username" 3 (some 100) s

/-- Simplified syntactic model of `EmailStr` (the external email-validator
dependency): exactly one at-sign, a nonempty local part, and a nonempty
domain containing a dot.  No claim depends on the exact email grammar. -/
def emailOk (s : String) : Bool :=
  let cs := s.data
  let pre := cs.takeWhile (fun c => c != '@')
  let post := (cs.dropWhile (fun c => c != '@')).drop 1
  cs.count '@' == 1 && pre ≠ [] && post ≠ [] && post.contains '.'

/-- The `email : EmailStr` field of `UserRegisterSchema`. -/
def checkEmail : JField → List FieldError
  | none => [⟨"email", "Field required"⟩]
  | some none => [⟨"email", "Input should be a valid string"⟩]
  | some (some s) =>
    if emailOk s then [] else [⟨"email", "value is not a valid email address"⟩]

/-! ### `UserUpdateSchema` -/

/-- The raw body of `PUT /api/users/me`. -/
structure RawUpdate where
  fullName : JField := none
  sex : JField := none
  phoneNumber : JField := none
  addressLine1 : JField := none
  addressLine2 : JField := none
  city : JField := none
  stateProvinceCode : JField := none
  countryCode : JField := none
  postalCode : JField := none
deriving DecidableEq, Repr

/-- A validated `UserUpdateSchema` instance: every field optional. -/
structure UserUpdate where
  fullName : Option String
  sex : Option String
  phoneNumber : Option String
  addressLine1 : Option String
  addressLine2 : Option String
  city : Option String
  stateProvinceCode : Option String
  countryCode : Option String
  postalCode : Option String
deriving DecidableEq, Repr

/-- The `country_code_uppercase` validator of `UserUpdateSchema`:
`if v: return v.upper()` — upper-case unless `None` or empty. -/
def ccUpdateValidator : Option String → Option String
  | none => none
  | some s => if s ≠ "" then some (pyUpper s) else some s

/-- All field errors of a `UserUpdateSchema` validation, in field declaration
order. -/
def updateErrors (r : RawUpdate) : List FieldError :=
  checkOptStr "fullName" 1 (some 255) r.fullName ++
  checkOptSex "sex" r.sex ++
  checkOptStr "phoneNumber" 0 (some 50) r.phoneNumber ++
  checkOptStr "addressLine1" 1 (some 255) r.addressLine1 ++
  checkOptStr "addressLine2" 0 (some 255) r.addressLine2 ++
  checkOptStr "city" 1 (some 100) r.city ++
  checkOptStr "stateProvinceCode" 2 (some 2) r.stateProvinceCode ++
  checkOptStr "countryCode" 2 (some 2) r.countryCode ++
  checkOptStr "postalCode" 1 (some 20) r.postalCode

/-- `UserUpdateSchema` validation: all errors collected, or the bound model. -/
def validateUpdate (r : RawUpdate) : Except (List FieldError) UserUpdate :=
  if updateErrors r = [] then
    .ok
      { fullName := fieldVal r.fullName
        sex := fieldVal r.sex
        phoneNumber := fieldVal r.phoneNumber
        addressLine1 := fieldVal r.addressLine1
        addressLine2 := fieldVal r.addressLine2
        city := fieldVal r.city
        stateProvinceCode := fieldVal r.stateProvinceCode
        countryCode := ccUpdateValidator (fieldVal r.countryCode)
        postalCode := fieldVal r.postalCode }
  else .error (updateErrors r)

/-! ### `PasswordChangeSchema` -/

/-- The raw body of `PUT /api/users/me/password`. -/
structure RawPasswordChange where
  currentPassword : JField := none
  newPassword : JField := none
deriving DecidableEq, Repr

/-- A validated `PasswordChangeSchema` instance. -/
structure PasswordChange where
  currentPassword : String
  newPassword : String
deriving DecidableEq, Repr

/-- All field errors of a `PasswordChangeSchema` validation:
`currentPassword` is required with `min_length=1`; `newPassword` is required
with `min_length=8` plus the strength validator. -/
def passwordChangeErrors (r : RawPasswordChange) : List FieldError :=
  checkReqStr "currentPassword" 1 none r.currentPassword ++
  checkPassword "newPassword" r.newPassword

/-- `PasswordChangeSchema` validation. -/
def validatePasswordChange (r : RawPasswordChange) :
    Except (List FieldError) PasswordChange :=
  if passwordChangeErrors r = [] then
    .ok
      { currentPassword := reqVal r.currentPassword
        newPassword := reqVal r.newPassword }
  else .error (passwordChangeErrors r)

/-! ### `UserRegisterSchema` -/

/-- The raw body of `POST /api/auth/register`. -/
structure RawRegister where
  email : JField := none
  username : JField := none
  password : JField := none
  fullName : JField := none
  sex : JField := none
  phoneNumber : JField := none
  addressLine1 : JField := none
  addressLine2 : JField := none
  city : JField := none
  stateProvinceCode : JField := none
  countryCode : JField := none
  postalCode : JField := none
deriving DecidableEq, Repr

/-- A validated `UserRegisterSchema` instance. -/
structure UserRegister where
  email : String
  username : String
  password : String
  fullName : String
  sex : String
  phoneNumber : Option String
  addressLine1 : String
  addressLine2 : Option String
  city : String
  stateProvinceCode : String
  countryCode : String
  postalCode : String
deriving DecidableEq, Repr

/-- All field errors of a `UserRegisterSchema` validation, in field
declaration order. -/
def registerErrors (r : RawRegister) : List FieldError :=
  checkEmail r.email ++
  checkUsername r.username ++
  checkPassword "password" r.password ++
  checkReqStr "fullName" 1 (some 255) r.fullName ++
  checkReqSex "sex" r.sex ++
  checkOptStr "phoneNumber" 0 (some 50) r.phoneNumber ++
  checkReqStr "addressLine1" 1 (some 255) r.addressLine1 ++
  checkOptStr "addressLine2" 0 (some 255) r.addressLine2 ++
  checkReqStr "city" 1 (some 100) r.city ++
  checkReqStr "stateProvinceCode" 1 (some 10) r.stateProvinceCode ++
  checkReqStr "countryCode" 2 (some 2) r.countryCode ++
  checkReqStr "postalCode" 1 (some 20) r.postalCode

/-- `UserRegisterSchema` validation; the `country_code_uppercase` validator
of the register schema upper-cases unconditionally. -/
def validateRegister (r : RawRegister) : Except (List FieldError) UserRegister :=
  if registerErrors r = [] then
    .ok
      { email := reqVal r.email
        username := reqVal r.username
        password := reqVal r.password
        fullName := reqVal r.fullName
        sex := reqVal r.sex
        phoneNumber := fieldVal r.phoneNumber
        addressLine1 := reqVal r.addressLine1
        addressLine2 := fieldVal r.addressLine2
        city := reqVal r.city
        stateProvinceCode := reqVal r.stateProvinceCode
        countryCode := pyUpper (reqVal r.countryCode)
        postalCode := reqVal r.postalCode }
  else .error (registerErrors r)

/-! ## Response serialization (`UserResponseSchema.model_validate(user).model_dump()`) -/

/-- A serialized JSON value of a response body. -/
inductive JVal where
  | s (v : String)
  | n (v : Nat)
  | null
deriving DecidableEq, Repr

/-- Serialize an optional column. -/
def optJ : Option String → JVal
  | none => .null
  | some v => .s v

/-- `UserResponseSchema.model_validate(user).model_dump()`: exactly the
fourteen declared camelCase fields, in declaration order; no password field
exists on the schema. -/
def dumpUser (u : User) : List (String × JVal) :=
  [("id", .n u.id),
   ("email", .s u.email),
   ("username", .s u.username),
   ("fullName", .s u.fullName),
   ("sex", .s u.sex),
   ("phoneNumber", optJ u.phoneNumber),
   ("addressLine1", .s u.addressLine1),
   ("addressLine2", optJ u.addressLine2),
   ("city", .s u.city),
   ("stateProvinceCode", .s u.stateProvinceCode),
   ("countryCode", .s u.countryCode),
   ("postalCode", .s u.postalCode),
   ("createdAt", .n u.createdAt),
   ("updatedAt", .n u.updatedAt)]

/-! ## Route handlers (`routes.py`) -/

/-- A response body: a serialized user, the structured 422 body produced by
`handle_validation_error` (`{'error': 'Validation Error', 'details': ...}`),
the 403 body of `change_password`, or the empty 204 body. -/
inductive Resp where
  | okUser (body : List (String × JVal))
  | validationError (error : String) (details : List FieldError)
  | forbidden (error : String)
  | noContent
deriving DecidableEq, Repr

/-- The nine field assignments of `update_current_user`:
`user.f = body.f if body.f is not None else user.f`, with
`body.countryCode.upper()` for the country code. -/
def applyUpdate (u : User) (b : UserUpdate) : User :=
  { u with
    fullName := b.fullName.getD u.fullName
    sex := b.sex.getD u.sex
    phoneNumber := b.phoneNumber.or u.phoneNumber
    addressLine1 := b.addressLine1.getD u.addressLine1
    addressLine2 := b.addressLine2.or u.addressLine2
    city := b.city.getD u.city
    stateProvinceCode := b.stateProvinceCode.getD u.stateProvinceCode
    countryCode := (b.countryCode.map pyUpper).getD u.countryCode
    postalCode := b.postalCode.getD u.postalCode }

/-- `db.session.commit()` on a loaded row: SQLAlchemy emits an UPDATE only
when some attribute has a net change, and only then does the
`onupdate=datetime.utcnow` column `updatedAt` refresh. -/
def commitUser (old new : User) (now : Nat) : User :=
  if new = old then old else { new with updatedAt := now }

/-- `GET /api/users/me` for the authenticated user: HTTP status and body. -/
def get_current_user (u : User) : Nat × Resp :=
  (200, .okUser (dumpUser u))

/-- `PUT /api/users/me` for the authenticated user: validation (the
`validate_with_422` decorator routing pydantic errors through
`handle_validation_error`), the nine sparse assignments, commit, and the
serialized response.  Returns (status, body, stored user after the request). -/
def update_current_user (u : User) (r : RawUpdate) (now : Nat) :
    Nat × Resp × User :=
  match validateUpdate r with
  | .error es => (422, .validationError "Validation Error" es, u)
  | .ok b =>
    let u' := commitUser u (applyUpdate u b) now
    (200, .okUser (dumpUser u'), u')

/-- `PUT /api/users/me/password` for the authenticated user: validation,
re-authentication against the current password, then
`user.update_password(body.newPassword)` and commit.  `salt` is the fresh
salt `bcrypt.gensalt()` draws inside `update_password`.  Returns
(status, body, stored user after the request). -/
def change_password (u : User) (r : RawPasswordChange) (salt now : Nat) :
    Nat × Resp × User :=
  match validatePasswordChange r with
  | .error es => (422, .validationError "Validation Error" es, u)
  | .ok b =>
    if verify_password u b.currentPassword then
      let u' := commitUser u (u.update_password b.newPassword salt) now
      (204, .noContent, u')
    else (403, .forbidden "Invalid current password", u)

/-! ## Helper lemmas -/

theorem pyUpperChar_toNat (c : Char) (h : 97 ≤ c.toNat ∧ c.toNat ≤ 122) :
    (pyUpperChar c).toNat = c.toNat - 32 := by
  unfold pyUpperChar
  rw [if_pos h]
  have hv : (c.toNat - 32).isValidChar := Or.inl (by omega)
  simp only [Char.ofNat, Char.toNat, UInt32.toNat]
  split
  · rfl
  · rename_i hn
    exact absurd hv hn

theorem pyUpperChar_idem (c : Char) : pyUpperChar (pyUpperChar c) = pyUpperChar c := by
  by_cases h : 97 ≤ c.toNat ∧ c.toNat ≤ 122
  · have h1 : (pyUpperChar c).toNat = c.toNat - 32 := pyUpperChar_toNat c h
    have h2 : ¬ (97 ≤ (pyUpperChar c).toNat ∧ (pyUpperChar c).toNat ≤ 122) := by
      rw [h1]; omega
    rw [show pyUpperChar (pyUpperChar c)
        = if 97 ≤ (pyUpperChar c).toNat ∧ (pyUpperChar c).toNat ≤ 122
          then Char.ofNat ((pyUpperChar c).toNat - 32) else pyUpperChar c from rfl]
    rw [if_neg h2]
  · have h1 : pyUpperChar c = c := by unfold pyUpperChar; rw [if_neg h]
    rw [h1, h1]

theorem pyUpper_idem (s : String) : pyUpper (pyUpper s) = pyUpper s := by
  unfold pyUpper
  simp only [List.map_map]
  exact congrArg String.mk (List.map_congr_left fun a _ => pyUpperChar_idem a)

theorem pyLen_pyUpper (s : String) : pyLen (pyUpper s) = pyLen s := by
  simp [pyUpper, pyLen]

/-- The `country_code_uppercase` validator of the update schema only
produces strings fixed under upper-casing. -/
theorem ccUpdateValidator_fixed {v : Option String} {s : String}
    (h : ccUpdateValidator v = some s) : pyUpper s = s := by
  match v with
  | none => simp [ccUpdateValidator] at h
  | some t =>
    simp only [ccUpdateValidator] at h
    by_cases ht : t = ""
    · subst ht
      simp at h
      subst h
      rfl
    · rw [if_pos ht] at h
      cases h
      exact pyUpper_idem t

/-- `commitUser` either keeps the loaded row (no net change: no UPDATE, no
`onupdate` refresh) or stores the new row with the refreshed timestamp. -/
theorem commitUser_cases (u n : User) (t : Nat) :
    commitUser u n t = n ∨ commitUser u n t = { n with updatedAt := t } := by
  unfold commitUser
  split
  · rename_i h
    rw [h]
    exact Or.inl rfl
  · exact Or.inr rfl

theorem commitUser_fields (u n : User) (t : Nat) :
    (commitUser u n t).id = n.id ∧
    (commitUser u n t).email = n.email ∧
    (commitUser u n t).username = n.username ∧
    (commitUser u n t).password_hash = n.password_hash ∧
    (commitUser u n t).fullName = n.fullName ∧
    (commitUser u n t).sex = n.sex ∧
    (commitUser u n t).phoneNumber = n.phoneNumber ∧
    (commitUser u n t).addressLine1 = n.addressLine1 ∧
    (commitUser u n t).addressLine2 = n.addressLine2 ∧
    (commitUser u n t).city = n.city ∧
    (commitUser u n t).stateProvinceCode = n.stateProvinceCode ∧
    (commitUser u n t).countryCode = n.countryCode ∧
    (commitUser u n t).postalCode = n.postalCode ∧
    (commitUser u n t).createdAt = n.createdAt := by
  rcases commitUser_cases u n t with h | h <;> rw [h] <;> simp

/-- Inversion of a successful `UserUpdateSchema` validation. -/
theorem validateUpdate_ok {r : RawUpdate} {b : UserUpdate}
    (h : validateUpdate r = .ok b) :
    updateErrors r = [] ∧
    b = { fullName := fieldVal r.fullName
          sex := fieldVal r.sex
          phoneNumber := fieldVal r.phoneNumber
          addressLine1 := fieldVal r.addressLine1
          addressLine2 := fieldVal r.addressLine2
          city := fieldVal r.city
          stateProvinceCode := fieldVal r.stateProvinceCode
          countryCode := ccUpdateValidator (fieldVal r.countryCode)
          postalCode := fieldVal r.postalCode } := by
  unfold validateUpdate at h
  split at h
  · rename_i he
    cases h
    exact ⟨he, rfl⟩
  · cases h

/-- Inversion of a successful `PasswordChangeSchema` validation. -/
theorem validatePasswordChange_ok {r : RawPasswordChange} {b : PasswordChange}
    (h : validatePasswordChange r = .ok b) :
    passwordChangeErrors r = [] ∧
    b = { currentPassword := reqVal r.currentPassword
          newPassword := reqVal r.newPassword } := by
  unfold validatePasswordChange at h
  split at h
  · rename_i he
    cases h
    exact ⟨he, rfl⟩
  · cases h

/-- Inversion of a successful `UserRegisterSchema` validation. -/
theorem validateRegister_ok {r : RawRegister} {b : UserRegister}
    (h : validateRegister r = .ok b) :
    registerErrors r = [] ∧
    b = { email := reqVal r.email
          username := reqVal r.username
          password := reqVal r.password
          fullName := reqVal r.fullName
          sex := reqVal r.sex
          phoneNumber := fieldVal r.phoneNumber
          addressLine1 := reqVal r.addressLine1
          addressLine2 := fieldVal r.addressLine2
          city := reqVal r.city
          stateProvinceCode := reqVal r.stateProvinceCode
          countryCode := pyUpper (reqVal r.countryCode)
          postalCode := reqVal r.postalCode } := by
  unfold validateRegister at h
  split at h
  · rename_i he
    cases h
    exact ⟨he, rfl⟩
  · cases h

/-- A fixed sample user for concrete evaluations. -/
def demoUser : User :=
  { id := 7
    email := "existing@test.com"
    username := "existinguser"
    password_hash := hashpw "password123" 1
    fullName := "Existing User"
    sex := "MALE"
    phoneNumber := none
    addressLine1 := "123 Test St"
    addressLine2 := none
    city := "Test City"
    stateProvinceCode := "TC"
    countryCode := "US"
    postalCode := "12345"
    createdAt := 100
    updatedAt := 100 }

/-! ## Claim theorems -/

/-- C9: per-call salting — `update_password` hashes the same plaintext with
the freshly drawn salt of each call, so two calls drawing distinct salts
store distinct hash values; equal plaintexts do not imply equal hashes. -/
theorem update_password_per_call_salt (u : User) (pw : String) (s₁ s₂ : Nat)
    (h : s₁ ≠ s₂) :
    (u.update_password pw s₁).password_hash ≠ (u.update_password pw s₂).password_hash := by
  simp only [User.update_password, hashpw, ne_eq, BcryptHash.mk.injEq]
  intro hc
  exact h hc.1

theorem update_password_per_call_salt_witness :
    (1 : Nat) ≠ 2 ∧
    (demoUser.update_password "password123" 1).password_hash ≠
      (demoUser.update_password "password123" 2).password_hash :=
  ⟨by decide, update_password_per_call_salt demoUser "password123" 1 2 (by decide)⟩

/-- C4: uniform login error — a login whose identifier matches no record and
a login whose identifier matches a record but whose password fails
verification both return the same single `INVALID_CREDENTIALS` error
(status 401, identical body), so the two cases are indistinguishable. -/
theorem login_uniform_invalid_credentials (store : List User)
    (id₁ pw₁ id₂ pw₂ : String) (u : User)
    (h₁ : store.find? (fun v => v.email == id₁ || v.username == id₁) = none)
    (h₂ : store.find? (fun v => v.email == id₂ || v.username == id₂) = some u)
    (h₃ : checkpw pw₂ u.password_hash = false) :
    login store id₁ pw₁ = .error invalidCredentials ∧
    login store id₂ pw₂ = .error invalidCredentials ∧
    login store id₁ pw₁ = login store id₂ pw₂ ∧
    invalidCredentials.status = 401 := by
  unfold login
  rw [h₁, h₂]
  refine ⟨rfl, ?_, ?_, rfl⟩ <;> simp [h₃]

theorem login_uniform_invalid_credentials_witness :
    login [demoUser] "nobody@test.com" "password123" = .error invalidCredentials ∧
    login [demoUser] "existing@test.com" "wrongpass" = .error invalidCredentials ∧
    login [demoUser] "nobody@test.com" "password123"
      = login [demoUser] "existing@test.com" "wrongpass" ∧
    invalidCredentials.status = 401 := by
  have h := login_uniform_invalid_credentials [demoUser]
    "nobody@test.com" "password123" "existing@test.com" "wrongpass" demoUser
    (by decide) (by decide) (by decide)
  exact ⟨h.1, h.2.1, h.2.2.1, h.2.2.2⟩

/-- Evaluation of the update route on a body that validates. -/
theorem update_route_ok {u : User} {r : RawUpdate} {now : Nat} {b : UserUpdate}
    (h : validateUpdate r = .ok b) :
    update_current_user u r now
      = (200, .okUser (dumpUser (commitUser u (applyUpdate u b) now)),
         commitUser u (applyUpdate u b) now) := by
  unfold update_current_user
  rw [h]

/-- Evaluation of the update route on a body that fails validation. -/
theorem update_route_err {u : User} {r : RawUpdate} {now : Nat} {es : List FieldError}
    (h : validateUpdate r = .error es) :
    update_current_user u r now = (422, .validationError "Validation Error" es, u) := by
  unfold update_current_user
  rw [h]

/-- Unfolding equation for `lenErrs` at a present upper bound. -/
theorem lenErrs_some (name : String) (lo hh : Nat) (s : String) :
    lenErrs name lo (some hh) s
      = if pyLen s < lo then [⟨name, s!"String should have at least {lo} characters"⟩]
        else if hh < pyLen s then [⟨name, s!"String should have at most {hh} characters"⟩]
        else [] := rfl

/-- An error-free length check forces the bounds. -/
theorem lenErrs_nil {name : String} {lo hi : Nat} {s : String}
    (h : lenErrs name lo (some hi) s = []) : lo ≤ pyLen s ∧ pyLen s ≤ hi := by
  rw [lenErrs_some] at h
  split at h
  · simp at h
  · rename_i h₁
    split at h
    · simp at h
    · rename_i h₂
      omega

/-- Decomposition of an error-free `UserUpdateSchema` validation into its
nine per-field checks. -/
theorem updateErrors_nil {r : RawUpdate} (h : updateErrors r = []) :
    checkOptStr "fullName" 1 (some 255) r.fullName = [] ∧
    checkOptSex "sex" r.sex = [] ∧
    checkOptStr "phoneNumber" 0 (some 50) r.phoneNumber = [] ∧
    checkOptStr "addressLine1" 1 (some 255) r.addressLine1 = [] ∧
    checkOptStr "addressLine2" 0 (some 255) r.addressLine2 = [] ∧
    checkOptStr "city" 1 (some 100) r.city = [] ∧
    checkOptStr "stateProvinceCode" 2 (some 2) r.stateProvinceCode = [] ∧
    checkOptStr "countryCode" 2 (some 2) r.countryCode = [] ∧
    checkOptStr "postalCode" 1 (some 20) r.postalCode = [] := by
  unfold updateErrors at h
  simp only [List.append_eq_nil] at h
  tauto

/-! ## C1 -/

/-- C1: sparse-patch profile update — on a valid patch, every supplied field
of the nine is overwritten with the supplied value, every omitted field
keeps its prior stored value, and email, username, id, createdAt and the
password hash are untouched. -/
theorem update_sparse_patch (u : User) (r : RawUpdate) (now : Nat) (b : UserUpdate)
    (h : validateUpdate r = .ok b) :
    ((∀ v, b.fullName = some v → (update_current_user u r now).2.2.fullName = v) ∧
     (b.fullName = none → (update_current_user u r now).2.2.fullName = u.fullName)) ∧
    ((∀ v, b.sex = some v → (update_current_user u r now).2.2.sex = v) ∧
     (b.sex = none → (update_current_user u r now).2.2.sex = u.sex)) ∧
    ((∀ v, b.phoneNumber = some v → (update_current_user u r now).2.2.phoneNumber = some v) ∧
     (b.phoneNumber = none → (update_current_user u r now).2.2.phoneNumber = u.phoneNumber)) ∧
    ((∀ v, b.addressLine1 = some v → (update_current_user u r now).2.2.addressLine1 = v) ∧
     (b.addressLine1 = none → (update_current_user u r now).2.2.addressLine1 = u.addressLine1)) ∧
    ((∀ v, b.addressLine2 = some v → (update_current_user u r now).2.2.addressLine2 = some v) ∧
     (b.addressLine2 = none → (update_current_user u r now).2.2.addressLine2 = u.addressLine2)) ∧
    ((∀ v, b.city = some v → (update_current_user u r now).2.2.city = v) ∧
     (b.city = none → (update_current_user u r now).2.2.city = u.city)) ∧
    ((∀ v, b.stateProvinceCode = some v → (update_current_user u r now).2.2.stateProvinceCode = v) ∧
     (b.stateProvinceCode = none → (update_current_user u r now).2.2.stateProvinceCode = u.stateProvinceCode)) ∧
    ((∀ v, b.countryCode = some v → (update_current_user u r now).2.2.countryCode = v) ∧
     (b.countryCode = none → (update_current_user u r now).2.2.countryCode = u.countryCode)) ∧
    ((∀ v, b.postalCode = some v → (update_current_user u r now).2.2.postalCode = v) ∧
     (b.postalCode = none → (update_current_user u r now).2.2.postalCode = u.postalCode)) ∧
    (update_current_user u r now).2.2.email = u.email ∧
    (update_current_user u r now).2.2.username = u.username ∧
    (update_current_user u r now).2.2.id = u.id ∧
    (update_current_user u r now).2.2.createdAt = u.createdAt ∧
    (update_current_user u r now).2.2.password_hash = u.password_hash := by
  obtain ⟨he, hb⟩ := validateUpdate_ok h
  rw [update_route_ok h]
  simp only
  obtain ⟨hid, hemail, husr, hpw, hfn, hsex, hph, ha1, ha2, hcity, hst, hcc, hpc, hcr⟩ :=
    commitUser_fields u (applyUpdate u b) now
  refine ⟨⟨?_, ?_⟩, ⟨?_, ?_⟩, ⟨?_, ?_⟩, ⟨?_, ?_⟩, ⟨?_, ?_⟩, ⟨?_, ?_⟩, ⟨?_, ?_⟩, ⟨?_, ?_⟩,
    ⟨?_, ?_⟩, ?_, ?_, ?_, ?_, ?_⟩
  · intro v hv; rw [hfn]; simp [applyUpdate, hv]
  · intro hv; rw [hfn]; simp [applyUpdate, hv]
  · intro v hv; rw [hsex]; simp [applyUpdate, hv]
  · intro hv; rw [hsex]; simp [applyUpdate, hv]
  · intro v hv; rw [hph]; simp [applyUpdate, hv]
  · intro hv; rw [hph]; simp [applyUpdate, hv]
  · intro v hv; rw [ha1]; simp [applyUpdate, hv]
  · intro hv; rw [ha1]; simp [applyUpdate, hv]
  · intro v hv; rw [ha2]; simp [applyUpdate, hv]
  · intro hv; rw [ha2]; simp [applyUpdate, hv]
  · intro v hv; rw [hcity]; simp [applyUpdate, hv]
  · intro hv; rw [hcity]; simp [applyUpdate, hv]
  · intro v hv; rw [hst]; simp [applyUpdate, hv]
  · intro hv; rw [hst]; simp [applyUpdate, hv]
  · intro v hv
    rw [hcc]
    have hfix : pyUpper v = v := by
      apply ccUpdateValidator_fixed (v := fieldVal r.countryCode)
      rw [← hv, hb]
    simp [applyUpdate, hv, hfix]
  · intro hv; rw [hcc]; simp [applyUpdate, hv]
  · intro v hv; rw [hpc]; simp [applyUpdate, hv]
  · intro hv; rw [hpc]; simp [applyUpdate, hv]
  · rw [hemail]; simp [applyUpdate]
  · rw [husr]; simp [applyUpdate]
  · rw [hid]; simp [applyUpdate]
  · rw [hcr]; simp [applyUpdate]
  · rw [hpw]; simp [applyUpdate]

/-- A partial patch touching only `fullName` and `phoneNumber`. -/
def rawPartial : RawUpdate :=
  { fullName := some (some "Partially Updated Name")
    phoneNumber := some (some "555-8888") }

/-- The validated form of `rawPartial`. -/
def bPartial : UserUpdate :=
  { fullName := some "Partially Updated Name"
    sex := none
    phoneNumber := some "555-8888"
    addressLine1 := none
    addressLine2 := none
    city := none
    stateProvinceCode := none
    countryCode := none
    postalCode := none }

theorem update_sparse_patch_witness :
    validateUpdate rawPartial = .ok bPartial ∧
    (update_current_user demoUser rawPartial 200).2.2.fullName = "Partially Updated Name" ∧
    (update_current_user demoUser rawPartial 200).2.2.phoneNumber = some "555-8888" ∧
    (update_current_user demoUser rawPartial 200).2.2.city = demoUser.city ∧
    (update_current_user demoUser rawPartial 200).2.2.countryCode = demoUser.countryCode ∧
    (update_current_user demoUser rawPartial 200).2.2.email = demoUser.email ∧
    (update_current_user demoUser rawPartial 200).2.2.password_hash = demoUser.password_hash := by
  have hv : validateUpdate rawPartial = .ok bPartial := by rfl
  obtain ⟨cf, cs, cp, ca1, ca2, cci, cst, ccc, cpc, ce, cu, ci, ccr, cph⟩ :=
    update_sparse_patch demoUser rawPartial 200 bPartial hv
  exact ⟨hv, cf.1 _ rfl, cp.1 _ rfl, cci.2 rfl, ccc.2 rfl, ce, cph⟩

/-! ## C3 -/

/-- C3: country-code normalization — a registration payload or an update
patch that supplies `countryCode` in any letter case yields a stored and
returned value equal to the upper-cased input. -/
theorem countryCode_uppercased :
    (∀ (raw : RawRegister) (reg : UserRegister) (s : String),
        validateRegister raw = .ok reg → raw.countryCode = some (some s) →
        reg.countryCode = pyUpper s) ∧
    (∀ (u : User) (r : RawUpdate) (now : Nat) (b : UserUpdate) (s : String),
        validateUpdate r = .ok b → r.countryCode = some (some s) →
        (update_current_user u r now).2.2.countryCode = pyUpper s ∧
        (update_current_user u r now).2.1
          = Resp.okUser (dumpUser (update_current_user u r now).2.2) ∧
        ("countryCode", JVal.s (pyUpper s)) ∈ dumpUser (update_current_user u r now).2.2) := by
  constructor
  · intro raw reg s h hraw
    obtain ⟨-, hb⟩ := validateRegister_ok h
    rw [hb]
    simp only
    rw [hraw]
    rfl
  · intro u r now b s h hr
    obtain ⟨he, hb⟩ := validateUpdate_ok h
    have h8 := (updateErrors_nil he).2.2.2.2.2.2.2.1
    rw [hr] at h8
    have hlen : 2 ≤ pyLen s ∧ pyLen s ≤ 2 := lenErrs_nil h8
    have hne : s ≠ "" := by
      intro hs
      subst hs
      simp [pyLen] at hlen
    have hcc : b.countryCode = some (pyUpper s) := by
      rw [hb]
      simp only
      rw [hr]
      simp [ccUpdateValidator, fieldVal, hne]
    have hw : (update_current_user u r now).2.2 = commitUser u (applyUpdate u b) now := by
      rw [update_route_ok h]
    have hfields := commitUser_fields u (applyUpdate u b) now
    have hstore : (update_current_user u r now).2.2.countryCode = pyUpper s := by
      rw [hw, hfields.2.2.2.2.2.2.2.2.2.2.2.1]
      simp [applyUpdate, hcc, pyUpper_idem]
    refine ⟨hstore, ?_, ?_⟩
    · rw [update_route_ok h]
    · rw [← hstore]
      simp [dumpUser]

/-- A patch that supplies a lower-case country code. -/
def rawCcLower : RawUpdate :=
  { countryCode := some (some "ca") }

/-- The validated form of `rawCcLower`. -/
def bCcLower : UserUpdate :=
  { fullName := none
    sex := none
    phoneNumber := none
    addressLine1 := none
    addressLine2 := none
    city := none
    stateProvinceCode := none
    countryCode := some "CA"
    postalCode := none }

/-- A registration payload with a lower-case country code. -/
def rawRegCa : RawRegister :=
  { email := some (some "new@test.com")
    username := some (some "newuser")
    password := some (some "password123")
    fullName := some (some "New User")
    sex := some (some "FEMALE")
    phoneNumber := none
    addressLine1 := some (some "1 Main St")
    addressLine2 := none
    city := some (some "Town")
    stateProvinceCode := some (some "TC")
    countryCode := some (some "ca")
    postalCode := some (some "12345") }

/-- The validated form of `rawRegCa`. -/
def regCa : UserRegister :=
  { email := "new@test.com"
    username := "newuser"
    password := "password123"
    fullName := "New User"
    sex := "FEMALE"
    phoneNumber := none
    addressLine1 := "1 Main St"
    addressLine2 := none
    city := "Town"
    stateProvinceCode := "TC"
    countryCode := "CA"
    postalCode := "12345" }

theorem countryCode_uppercased_witness :
    validateRegister rawRegCa = .ok regCa ∧
    regCa.countryCode = pyUpper "ca" ∧
    regCa.countryCode = "CA" ∧
    validateUpdate rawCcLower = .ok bCcLower ∧
    (update_current_user demoUser rawCcLower 200).2.2.countryCode = pyUpper "ca" ∧
    (update_current_user demoUser rawCcLower 200).2.2.countryCode = "CA" := by
  have hr : validateRegister rawRegCa = .ok regCa := by rfl
  have hu : validateUpdate rawCcLower = .ok bCcLower := by rfl
  refine ⟨hr, countryCode_uppercased.1 rawRegCa regCa "ca" hr rfl, by rfl, hu, ?_, by rfl⟩
  exact (countryCode_uppercased.2 demoUser rawCcLower 200 bCcLower "ca" hu rfl).1

/-! ## C7 -/

theorem opt_getD_idem {α : Type} (o : Option α) (a : α) :
    o.getD (o.getD a) = o.getD a := by
  cases o <;> rfl

theorem opt_or_idem {α : Type} (o p : Option α) : o.or (o.or p) = o.or p := by
  cases o <;> rfl

/-- Re-applying the same validated patch overwrites every touched field with
the value it already has. -/
theorem applyUpdate_overwrite (u : User) (b : UserUpdate) :
    applyUpdate (applyUpdate u b) b = applyUpdate u b := by
  cases u
  simp [applyUpdate, opt_getD_idem, opt_or_idem]

/-- The patch application never reads or writes `updatedAt`. -/
theorem applyUpdate_set_updatedAt (w : User) (b : UserUpdate) (t : Nat) :
    applyUpdate { w with updatedAt := t } b = { applyUpdate w b with updatedAt := t } := rfl

/-- C7: profile-update idempotence — running `PUT /api/users/me` twice with
the same patch leaves the stored record exactly as after the first run
(the second run has no net change, so no UPDATE and no `updatedAt` refresh),
and returns the same status and body as the first run. -/
theorem update_idempotent (u : User) (r : RawUpdate) (t₁ t₂ : Nat) :
    update_current_user (update_current_user u r t₁).2.2 r t₂
      = update_current_user u r t₁ := by
  cases hv : validateUpdate r with
  | error es =>
    simp only [update_route_err hv]
  | ok b =>
    have happ : applyUpdate (commitUser u (applyUpdate u b) t₁) b
        = commitUser u (applyUpdate u b) t₁ := by
      rcases commitUser_cases u (applyUpdate u b) t₁ with h | h <;> rw [h]
      · exact applyUpdate_overwrite u b
      · rw [applyUpdate_set_updatedAt, applyUpdate_overwrite]
    have hcommit : commitUser (commitUser u (applyUpdate u b) t₁)
        (applyUpdate (commitUser u (applyUpdate u b) t₁) b) t₂
        = commitUser u (applyUpdate u b) t₁ := by
      rw [happ]
      simp [commitUser]
    simp only [update_route_ok hv, hcommit]

/-! ## C10 -/

/-- C10: explicit JSON null is treated exactly like an omitted key — pydantic
binds `None` for both, the route then keeps the stored value — so the
nullable fields `phoneNumber` and `addressLine2`, once non-null, can never be
cleared back to null through `PUT /api/users/me`. -/
theorem null_patch_like_omitted :
    (∀ r : RawUpdate,
        validateUpdate { r with phoneNumber := some none }
          = validateUpdate { r with phoneNumber := none } ∧
        validateUpdate { r with addressLine2 := some none }
          = validateUpdate { r with addressLine2 := none }) ∧
    (∀ (u : User) (r : RawUpdate) (t : Nat), r.phoneNumber = some none →
        (update_current_user u r t).2.2.phoneNumber = u.phoneNumber) ∧
    (∀ (u : User) (r : RawUpdate) (t : Nat), r.addressLine2 = some none →
        (update_current_user u r t).2.2.addressLine2 = u.addressLine2) ∧
    (∀ (u : User) (r : RawUpdate) (t : Nat),
        (update_current_user u r t).2.2.phoneNumber = none → u.phoneNumber = none) ∧
    (∀ (u : User) (r : RawUpdate) (t : Nat),
        (update_current_user u r t).2.2.addressLine2 = none → u.addressLine2 = none) := by
  refine ⟨fun r => ⟨rfl, rfl⟩, ?_, ?_, ?_, ?_⟩
  · intro u r t hr
    cases hv : validateUpdate r with
    | error es => rw [update_route_err hv]
    | ok b =>
      obtain ⟨-, hb⟩ := validateUpdate_ok hv
      rw [update_route_ok hv]
      simp only
      rw [(commitUser_fields u (applyUpdate u b) t).2.2.2.2.2.2.1]
      have hph : b.phoneNumber = none := by
        rw [hb]
        simp only
        rw [hr]
        rfl
      simp [applyUpdate, hph, Option.or]
  · intro u r t hr
    cases hv : validateUpdate r with
    | error es => rw [update_route_err hv]
    | ok b =>
      obtain ⟨-, hb⟩ := validateUpdate_ok hv
      rw [update_route_ok hv]
      simp only
      rw [(commitUser_fields u (applyUpdate u b) t).2.2.2.2.2.2.2.2.1]
      have ha2 : b.addressLine2 = none := by
        rw [hb]
        simp only
        rw [hr]
        rfl
      simp [applyUpdate, ha2, Option.or]
  · intro u r t hr
    cases hv : validateUpdate r with
    | error es =>
      rw [update_route_err hv] at hr
      exact hr
    | ok b =>
      rw [update_route_ok hv] at hr
      simp only at hr
      rw [(commitUser_fields u (applyUpdate u b) t).2.2.2.2.2.2.1] at hr
      simp only [applyUpdate] at hr
      cases hph : b.phoneNumber with
      | none => rw [hph] at hr; exact hr
      | some v => rw [hph] at hr; simp [Option.or] at hr
  · intro u r t hr
    cases hv : validateUpdate r with
    | error es =>
      rw [update_route_err hv] at hr
      exact hr
    | ok b =>
      rw [update_route_ok hv] at hr
      simp only at hr
      rw [(commitUser_fields u (applyUpdate u b) t).2.2.2.2.2.2.2.2.1] at hr
      simp only [applyUpdate] at hr
      cases ha2 : b.addressLine2 with
      | none => rw [ha2] at hr; exact hr
      | some v => rw [ha2] at hr; simp [Option.or] at hr

/-- A user whose nullable fields are set. -/
def demoUserFull : User :=
  { demoUser with phoneNumber := some "555-1234", addressLine2 := some "Apt 2B" }

/-- A patch sending explicit nulls for the nullable fields. -/
def rawNulls : RawUpdate :=
  { phoneNumber := some none
    addressLine2 := some none }

theorem null_patch_like_omitted_witness :
    (update_current_user demoUserFull rawNulls 200).2.2.phoneNumber = some "555-1234" ∧
    (update_current_user demoUserFull rawNulls 200).2.2.addressLine2 = some "Apt 2B" ∧
    validateUpdate { rawNulls with phoneNumber := some none }
      = validateUpdate { rawNulls with phoneNumber := none } := by
  obtain ⟨h1, h2, h3, -, -⟩ := null_patch_like_omitted
  refine ⟨?_, ?_, (h1 rawNulls).1⟩
  · rw [h2 demoUserFull rawNulls 200 rfl]
    rfl
  · rw [h3 demoUserFull rawNulls 200 rfl]
    rfl

/-! ## C2 -/

/-- Evaluation of the password route on a body that validates. -/
theorem change_route_ok {u : User} {r : RawPasswordChange} {salt now : Nat}
    {b : PasswordChange} (h : validatePasswordChange r = .ok b) :
    change_password u r salt now
      = if verify_password u b.currentPassword then
          (204, .noContent, commitUser u (u.update_password b.newPassword salt) now)
        else (403, .forbidden "Invalid current password", u) := by
  unfold change_password
  rw [h]

/-- A password-change body whose new password equals the current one. -/
def rawSamePw : RawPasswordChange :=
  { currentPassword := some (some "password123")
    newPassword := some (some "password123") }

/-- The validated form of `rawSamePw`. -/
def pcSamePw : PasswordChange :=
  { currentPassword := "password123", newPassword := "password123" }

/-- C2 fails as stated: with a schema-valid body whose `newPassword` equals
`currentPassword`, the current password verifies, the route answers 204 and
replaces the hash — but afterwards the old password still verifies (the
claim demands it no longer does). -/
theorem change_password_same_pw_counterexample :
    validatePasswordChange rawSamePw = .ok pcSamePw ∧
    verify_password demoUser pcSamePw.currentPassword = true ∧
    (change_password demoUser rawSamePw 5 300).1 = 204 ∧
    verify_password (change_password demoUser rawSamePw 5 300).2.2
      pcSamePw.currentPassword = true := by
  refine ⟨rfl, by decide, rfl, by decide⟩

/-- C2 (amended): with a schema-valid body, a wrong current password yields
403 and leaves the user record untouched; a correct one yields 204, replaces
the stored hash by a fresh-salt hash of `newPassword`, after which the new
password verifies, and — provided `newPassword` differs from
`currentPassword` — the old password no longer verifies. -/
theorem change_password_behaviour (u : User) (r : RawPasswordChange)
    (b : PasswordChange) (salt now : Nat)
    (h : validatePasswordChange r = .ok b) :
    (verify_password u b.currentPassword = false →
      change_password u r salt now = (403, .forbidden "Invalid current password", u)) ∧
    (verify_password u b.currentPassword = true →
      (change_password u r salt now).1 = 204 ∧
      (change_password u r salt now).2.2.password_hash = hashpw b.newPassword salt ∧
      verify_password (change_password u r salt now).2.2 b.newPassword = true ∧
      (b.currentPassword ≠ b.newPassword →
        verify_password (change_password u r salt now).2.2 b.currentPassword = false)) := by
  rw [change_route_ok h]
  constructor
  · intro hv
    rw [hv]
    simp
  · intro hv
    rw [hv, if_pos rfl]
    have hhash : (commitUser u (u.update_password b.newPassword salt) now).password_hash
        = hashpw b.newPassword salt :=
      (commitUser_fields u (u.update_password b.newPassword salt) now).2.2.2.1
    refine ⟨rfl, hhash, ?_, ?_⟩
    · simp [verify_password, checkpw, hhash, hashpw]
    · intro hne
      simp only [verify_password, checkpw, hhash, hashpw]
      simp [BcryptHash.mk.injEq]
      intro hc
      exact hne hc

/-- A password-change body with the wrong current password. -/
def rawPwWrong : RawPasswordChange :=
  { currentPassword := some (some "wrongpassword")
    newPassword := some (some "NewPass123") }

/-- The validated form of `rawPwWrong`. -/
def pcPwWrong : PasswordChange :=
  { currentPassword := "wrongpassword", newPassword := "NewPass123" }

/-- A password-change body with the correct current password. -/
def rawPwGood : RawPasswordChange :=
  { currentPassword := some (some "password123")
    newPassword := some (some "NewPass123") }

/-- The validated form of `rawPwGood`. -/
def pcPwGood : PasswordChange :=
  { currentPassword := "password123", newPassword := "NewPass123" }

theorem change_password_behaviour_witness :
    validatePasswordChange rawPwWrong = .ok pcPwWrong ∧
    verify_password demoUser pcPwWrong.currentPassword = false ∧
    change_password demoUser rawPwWrong 5 300
      = (403, .forbidden "Invalid current password", demoUser) ∧
    validatePasswordChange rawPwGood = .ok pcPwGood ∧
    verify_password demoUser pcPwGood.currentPassword = true ∧
    (change_password demoUser rawPwGood 5 300).1 = 204 ∧
    (change_password demoUser rawPwGood 5 300).2.2.password_hash
      = hashpw "NewPass123" 5 ∧
    verify_password (change_password demoUser rawPwGood 5 300).2.2 "NewPass123" = true ∧
    verify_password (change_password demoUser rawPwGood 5 300).2.2 "password123" = false := by
  have h₁ : validatePasswordChange rawPwWrong = .ok pcPwWrong := rfl
  have h₂ : validatePasswordChange rawPwGood = .ok pcPwGood := rfl
  have w₁ := change_password_behaviour demoUser rawPwWrong pcPwWrong 5 300 h₁
  have w₂ := change_password_behaviour demoUser rawPwGood pcPwGood 5 300 h₂
  exact ⟨h₁, by decide, w₁.1 (by decide), h₂, by decide, (w₂.2 (by decide)).1,
    (w₂.2 (by decide)).2.1, (w₂.2 (by decide)).2.2.1,
    (w₂.2 (by decide)).2.2.2 (by decide)⟩

/-! ## C5 and C6 prerequisites -/

/-- Unfolding equation for `lenErrs` with no upper bound. -/
theorem lenErrs_none (name : String) (lo : Nat) (s : String) :
    lenErrs name lo none s
      = if pyLen s < lo then [⟨name, s!"String should have at least {lo} characters"⟩]
        else [] := rfl

/-- Inversion of a failed `UserUpdateSchema` validation. -/
theorem validateUpdate_err {r : RawUpdate} {es : List FieldError}
    (h : validateUpdate r = .error es) : es = updateErrors r ∧ updateErrors r ≠ [] := by
  unfold validateUpdate at h
  split at h
  · cases h
  · rename_i hne
    cases h
    exact ⟨rfl, hne⟩

/-- Every length-bound error names the checked field. -/
theorem lenErrs_field (name : String) (lo : Nat) (hi : Option Nat) (s : String) :
    ∀ e ∈ lenErrs name lo hi s, e.field = name := by
  intro e he
  unfold lenErrs at he
  split at he
  · simp at he
    rw [he]
  · cases hi with
    | some hh =>
      simp only at he
      split at he
      · simp at he
        rw [he]
      · simp at he
    | none => simp at he

/-- Every error of an optional-string field check names that field. -/
theorem checkOptStr_field (name : String) (lo : Nat) (hi : Option Nat) (v : JField) :
    ∀ e ∈ checkOptStr name lo hi v, e.field = name := by
  intro e he
  match v with
  | none => simp [checkOptStr] at he
  | some none => simp [checkOptStr] at he
  | some (some s) => exact lenErrs_field name lo hi s e he

/-- Every error of the optional sex check names that field. -/
theorem checkOptSex_field (name : String) (v : JField) :
    ∀ e ∈ checkOptSex name v, e.field = name := by
  intro e he
  match v with
  | none => simp [checkOptSex] at he
  | some none => simp [checkOptSex] at he
  | some (some s) =>
    simp only [checkOptSex] at he
    split at he
    · simp at he
    · simp at he
      rw [he]

/-- A nonempty per-field error list of a larger details list puts the field
name among the detail field names. -/
theorem mem_field_of_ne_nil {l es : List FieldError} {name : String}
    (hsub : ∀ e ∈ l, e ∈ es) (hfield : ∀ e ∈ l, e.field = name) (h : l ≠ []) :
    name ∈ es.map FieldError.field := by
  cases l with
  | nil => exact absurd rfl h
  | cons e tl =>
    have he : e ∈ es := hsub e (by simp)
    have hf : e.field = name := hfield e (by simp)
    exact hf ▸ List.mem_map_of_mem FieldError.field he

/-- An error-free required-string check forces a present value within the
bounds. -/
theorem checkReqStr_nil {name : String} {lo hi : Nat} {v : JField}
    (h : checkReqStr name lo (some hi) v = []) :
    ∃ s, v = some (some s) ∧ lo ≤ pyLen s ∧ pyLen s ≤ hi := by
  match v with
  | none => simp [checkReqStr] at h
  | some none => simp [checkReqStr] at h
  | some (some s) =>
    refine ⟨s, rfl, ?_⟩
    exact lenErrs_nil h

/-- An error-free password check forces a present value of length at least 8
containing a digit and a letter. -/
theorem checkPassword_nil {name : String} {v : JField}
    (h : checkPassword name v = []) :
    ∃ s, v = some (some s) ∧ 8 ≤ pyLen s ∧ hasDigit s = true ∧ hasAlpha s = true := by
  match v with
  | none => simp [checkPassword] at h
  | some none => simp [checkPassword] at h
  | some (some s) =>
    refine ⟨s, rfl, ?_⟩
    simp only [checkPassword] at h
    split at h
    · rename_i hlen
      rw [lenErrs_none] at hlen
      have h8 : 8 ≤ pyLen s := by
        by_contra hc
        rw [if_pos (by omega)] at hlen
        simp at hlen
      refine ⟨h8, ?_⟩
      unfold passwordStrengthErrs at h
      split at h
      · simp at h
      · rename_i hd
        split at h
        · simp at h
        · rename_i ha
          simp at hd ha
          exact ⟨hd, ha⟩
    · rename_i hlen
      exact absurd h hlen

/-- An error-free username check forces a present value within the bounds
whose characters are all letters, digits, underscores or hyphens. -/
theorem checkUsername_nil {v : JField} (h : checkUsername v = []) :
    ∃ s, v = some (some s) ∧ 3 ≤ pyLen s ∧ pyLen s ≤ 100 ∧
      s.data.all usernameChar = true := by
  match v with
  | none => simp [checkUsername] at h
  | some none => simp [checkUsername] at h
  | some (some s) =>
    refine ⟨s, rfl, ?_⟩
    simp only [checkUsername] at h
    split at h
    · rename_i hlen
      obtain ⟨h3, h100⟩ := lenErrs_nil hlen
      refine ⟨h3, h100, ?_⟩
      split at h
      · assumption
      · simp at h
    · rename_i hlen
      exact absurd h hlen

/-- Decomposition of an error-free `UserRegisterSchema` validation into its
twelve per-field checks. -/
theorem registerErrors_nil {r : RawRegister} (h : registerErrors r = []) :
    checkEmail r.email = [] ∧
    checkUsername r.username = [] ∧
    checkPassword "password" r.password = [] ∧
    checkReqStr "fullName" 1 (some 255) r.fullName = [] ∧
    checkReqSex "sex" r.sex = [] ∧
    checkOptStr "phoneNumber" 0 (some 50) r.phoneNumber = [] ∧
    checkReqStr "addressLine1" 1 (some 255) r.addressLine1 = [] ∧
    checkOptStr "addressLine2" 0 (some 255) r.addressLine2 = [] ∧
    checkReqStr "city" 1 (some 100) r.city = [] ∧
    checkReqStr "stateProvinceCode" 1 (some 10) r.stateProvinceCode = [] ∧
    checkReqStr "countryCode" 2 (some 2) r.countryCode = [] ∧
    checkReqStr "postalCode" 1 (some 20) r.postalCode = [] := by
  unfold registerErrors at h
  simp only [List.append_eq_nil] at h
  tauto

/-- Decomposition of an error-free `PasswordChangeSchema` validation. -/
theorem passwordChangeErrors_nil {r : RawPasswordChange}
    (h : passwordChangeErrors r = []) :
    checkReqStr "currentPassword" 1 none r.currentPassword = [] ∧
    checkPassword "newPassword" r.newPassword = [] := by
  unfold passwordChangeErrors at h
  simp only [List.append_eq_nil] at h
  exact h

/-! ## C5 -/

/-- C5: validation rules — an accepted registration carries a password of
length at least 8 with a digit and a letter, a username over the restricted
alphabet (so no space), and a 2-character country code; an accepted password
change obeys the same password rules for `newPassword`; an accepted update
patch carries a 2-character country code when supplied; and an update patch
whose `stateProvinceCode` exceeds 2 characters fails with 422 naming that
field and mutates nothing. -/
theorem validation_rules :
    (∀ (raw : RawRegister) (reg : UserRegister), validateRegister raw = .ok reg →
        8 ≤ pyLen reg.password ∧ hasDigit reg.password = true ∧
        hasAlpha reg.password = true ∧
        reg.username.data.all usernameChar = true ∧ (' ') ∉ reg.username.data ∧
        pyLen reg.countryCode = 2) ∧
    (∀ (raw : RawPasswordChange) (pc : PasswordChange),
        validatePasswordChange raw = .ok pc →
        8 ≤ pyLen pc.newPassword ∧ hasDigit pc.newPassword = true ∧
        hasAlpha pc.newPassword = true) ∧
    (∀ (r : RawUpdate) (b : UserUpdate) (s : String), validateUpdate r = .ok b →
        b.countryCode = some s → pyLen s = 2) ∧
    (∀ (u : User) (r : RawUpdate) (t : Nat) (s : String),
        r.stateProvinceCode = some (some s) → 2 < pyLen s →
        (update_current_user u r t).1 = 422 ∧
        (update_current_user u r t).2.2 = u ∧
        "stateProvinceCode" ∈ (updateErrors r).map FieldError.field ∧
        (update_current_user u r t).2.1
          = Resp.validationError "Validation Error" (updateErrors r)) := by
  refine ⟨?_, ?_, ?_, ?_⟩
  · intro raw reg h
    obtain ⟨he, hb⟩ := validateRegister_ok h
    obtain ⟨-, hus, hpw, -, -, -, -, -, -, -, hcc, -⟩ := registerErrors_nil he
    obtain ⟨p, hpv, hp8, hpd, hpa⟩ := checkPassword_nil hpw
    obtain ⟨un, huv, -, -, hual⟩ := checkUsername_nil hus
    obtain ⟨cc, hccv, hcc2, hcc2h⟩ := checkReqStr_nil hcc
    have hregp : reg.password = p := by
      rw [hb]
      simp only
      rw [hpv]
      rfl
    have hregu : reg.username = un := by
      rw [hb]
      simp only
      rw [huv]
      rfl
    have hregc : reg.countryCode = pyUpper cc := by
      rw [hb]
      simp only
      rw [hccv]
      rfl
    rw [hregp, hregu, hregc]
    refine ⟨hp8, hpd, hpa, hual, ?_, ?_⟩
    · intro hm
      have := List.all_eq_true.mp hual _ hm
      simp [usernameChar] at this
    · rw [pyLen_pyUpper]
      omega
  · intro raw pc h
    obtain ⟨he, hb⟩ := validatePasswordChange_ok h
    obtain ⟨-, hnp⟩ := passwordChangeErrors_nil he
    obtain ⟨p, hpv, hp8, hpd, hpa⟩ := checkPassword_nil hnp
    have hpc : pc.newPassword = p := by
      rw [hb]
      simp only
      rw [hpv]
      rfl
    rw [hpc]
    exact ⟨hp8, hpd, hpa⟩
  · intro r b s h hcc
    obtain ⟨he, hb⟩ := validateUpdate_ok h
    have h8 := (updateErrors_nil he).2.2.2.2.2.2.2.1
    rw [hb] at hcc
    simp only at hcc
    match hv : fieldVal r.countryCode with
    | none => rw [hv] at hcc; simp [ccUpdateValidator] at hcc
    | some t =>
      rw [hv] at hcc
      have hrv : r.countryCode = some (some t) := by
        match hw : r.countryCode with
        | none => rw [hw] at hv; simp [fieldVal] at hv
        | some none => rw [hw] at hv; simp [fieldVal] at hv
        | some (some w) =>
          rw [hw] at hv
          simp [fieldVal] at hv
          rw [hv]
      rw [hrv] at h8
      have hlen : 2 ≤ pyLen t ∧ pyLen t ≤ 2 := lenErrs_nil h8
      have hne : t ≠ "" := by
        intro ht
        subst ht
        simp [pyLen] at hlen
      simp only [ccUpdateValidator, if_pos hne] at hcc
      cases hcc
      rw [pyLen_pyUpper]
      omega
  · intro u r t s hr h2
    cases hv : validateUpdate r with
    | ok b =>
      obtain ⟨he, -⟩ := validateUpdate_ok hv
      have h7 := (updateErrors_nil he).2.2.2.2.2.2.1
      rw [hr] at h7
      have := lenErrs_nil h7
      omega
    | error es =>
      obtain ⟨hes, -⟩ := validateUpdate_err hv
      subst hes
      rw [update_route_err hv]
      have hst : checkOptStr "stateProvinceCode" 2 (some 2) r.stateProvinceCode
          = [⟨"stateProvinceCode", "String should have at most 2 characters"⟩] := by
        rw [hr]
        show lenErrs "stateProvinceCode" 2 (some 2) s = _
        rw [lenErrs_some, if_neg (by omega), if_pos (by omega)]
        decide
      refine ⟨rfl, rfl, ?_, rfl⟩
      apply mem_field_of_ne_nil (l := checkOptStr "stateProvinceCode" 2 (some 2) r.stateProvinceCode)
      · intro e he
        simp [updateErrors, List.mem_append]
        tauto
      · exact checkOptStr_field _ _ _ _
      · rw [hst]
        simp

/-- A patch whose state/province code is too long. -/
def rawBadState : RawUpdate :=
  { stateProvinceCode := some (some "INVALID") }

theorem validation_rules_witness :
    (8 ≤ pyLen regCa.password ∧ hasDigit regCa.password = true ∧
      hasAlpha regCa.password = true ∧
      regCa.username.data.all usernameChar = true ∧ (' ') ∉ regCa.username.data ∧
      pyLen regCa.countryCode = 2) ∧
    (8 ≤ pyLen pcPwGood.newPassword ∧ hasDigit pcPwGood.newPassword = true ∧
      hasAlpha pcPwGood.newPassword = true) ∧
    pyLen "CA" = 2 ∧
    ((update_current_user demoUser rawBadState 200).1 = 422 ∧
      (update_current_user demoUser rawBadState 200).2.2 = demoUser ∧
      "stateProvinceCode" ∈ (updateErrors rawBadState).map FieldError.field ∧
      (update_current_user demoUser rawBadState 200).2.1
        = Resp.validationError "Validation Error" (updateErrors rawBadState)) := by
  obtain ⟨h1, h2, h3, h4⟩ := validation_rules
  refine ⟨h1 rawRegCa regCa rfl, h2 rawPwGood pcPwGood rfl, ?_, ?_⟩
  · exact h3 rawCcLower bCcLower "CA" rfl rfl
  · exact h4 demoUser rawBadState 200 "INVALID" rfl (by decide)

/-! ## C6 -/

/-- Every error of a required-string field check names that field. -/
theorem checkReqStr_field (name : String) (lo : Nat) (hi : Option Nat) (v : JField) :
    ∀ e ∈ checkReqStr name lo hi v, e.field = name := by
  intro e he
  match v with
  | none =>
    simp [checkReqStr] at he
    rw [he]
  | some none =>
    simp [checkReqStr] at he
    rw [he]
  | some (some s) => exact lenErrs_field name lo hi s e he

/-- Every error of a password field check names that field. -/
theorem checkPassword_field (name : String) (v : JField) :
    ∀ e ∈ checkPassword name v, e.field = name := by
  intro e he
  match v with
  | none =>
    simp [checkPassword] at he
    rw [he]
  | some none =>
    simp [checkPassword] at he
    rw [he]
  | some (some s) =>
    simp only [checkPassword] at he
    split at he
    · unfold passwordStrengthErrs at he
      split at he
      · simp at he
        rw [he]
      · split at he
        · simp at he
          rw [he]
        · simp at he
    · exact lenErrs_field name 8 none s e he

/-- Every error of the username check names the username field. -/
theorem checkUsername_field (v : JField) :
    ∀ e ∈ checkUsername v, e.field = "username" := by
  intro e he
  match v with
  | none =>
    simp [checkUsername] at he
    rw [he]
  | some none =>
    simp [checkUsername] at he
    rw [he]
  | some (some s) =>
    simp only [checkUsername] at he
    split at he
    · split at he
      · simp at he
      · simp at he
        rw [he]
    · exact lenErrs_field "username" 3 (some 100) s e he

/-- Every error of the email check names the email field. -/
theorem checkEmail_field (v : JField) :
    ∀ e ∈ checkEmail v, e.field = "email" := by
  intro e he
  match v with
  | none =>
    simp [checkEmail] at he
    rw [he]
  | some none =>
    simp [checkEmail] at he
    rw [he]
  | some (some s) =>
    simp only [checkEmail] at he
    split at he
    · simp at he
    · simp at he
      rw [he]

/-- Every error of the required sex check names that field. -/
theorem checkReqSex_field (name : String) (v : JField) :
    ∀ e ∈ checkReqSex name v, e.field = name := by
  intro e he
  match v with
  | none =>
    simp [checkReqSex] at he
    rw [he]
  | some none =>
    simp [checkReqSex] at he
    rw [he]
  | some (some s) =>
    simp only [checkReqSex] at he
    split at he
    · simp at he
    · simp at he
      rw [he]

/-- Inversion of a failed `PasswordChangeSchema` validation. -/
theorem validatePasswordChange_err {r : RawPasswordChange} {es : List FieldError}
    (h : validatePasswordChange r = .error es) :
    es = passwordChangeErrors r ∧ passwordChangeErrors r ≠ [] := by
  unfold validatePasswordChange at h
  split at h
  · cases h
  · rename_i hne
    cases h
    exact ⟨rfl, hne⟩

/-- Inversion of a failed `UserRegisterSchema` validation. -/
theorem validateRegister_err {r : RawRegister} {es : List FieldError}
    (h : validateRegister r = .error es) :
    es = registerErrors r ∧ registerErrors r ≠ [] := by
  unfold validateRegister at h
  split at h
  · cases h
  · rename_i hne
    cases h
    exact ⟨rfl, hne⟩

/-- Evaluation of the password route on a body that fails validation. -/
theorem change_route_err {u : User} {r : RawPasswordChange} {salt now : Nat}
    {es : List FieldError} (h : validatePasswordChange r = .error es) :
    change_password u r salt now = (422, .validationError "Validation Error" es, u) := by
  unfold change_password
  rw [h]

/-- Each per-field check of the register schema is contained in the full
error list. -/
theorem mem_registerErrors {r : RawRegister} {e : FieldError}
    (h : e ∈ checkEmail r.email ∨ e ∈ checkUsername r.username ∨
         e ∈ checkPassword "password" r.password ∨
         e ∈ checkReqStr "fullName" 1 (some 255) r.fullName ∨
         e ∈ checkReqSex "sex" r.sex ∨
         e ∈ checkOptStr "phoneNumber" 0 (some 50) r.phoneNumber ∨
         e ∈ checkReqStr "addressLine1" 1 (some 255) r.addressLine1 ∨
         e ∈ checkOptStr "addressLine2" 0 (some 255) r.addressLine2 ∨
         e ∈ checkReqStr "city" 1 (some 100) r.city ∨
         e ∈ checkReqStr "stateProvinceCode" 1 (some 10) r.stateProvinceCode ∨
         e ∈ checkReqStr "countryCode" 2 (some 2) r.countryCode ∨
         e ∈ checkReqStr "postalCode" 1 (some 20) r.postalCode) :
    e ∈ registerErrors r := by
  unfold registerErrors
  rcases h with h | h | h | h | h | h | h | h | h | h | h | h
  · exact List.mem_append_left _ (List.mem_append_left _ (List.mem_append_left _
      (List.mem_append_left _ (List.mem_append_left _ (List.mem_append_left _
      (List.mem_append_left _ (List.mem_append_left _ (List.mem_append_left _
      (List.mem_append_left _ (List.mem_append_left _ h))))))))))
  · exact List.mem_append_left _ (List.mem_append_left _ (List.mem_append_left _
      (List.mem_append_left _ (List.mem_append_left _ (List.mem_append_left _
      (List.mem_append_left _ (List.mem_append_left _ (List.mem_append_left _
      (List.mem_append_left _ (List.mem_append_right _ h))))))))))
  · exact List.mem_append_left _ (List.mem_append_left _ (List.mem_append_left _
      (List.mem_append_left _ (List.mem_append_left _ (List.mem_append_left _
      (List.mem_append_left _ (List.mem_append_left _ (List.mem_append_left _
      (List.mem_append_right _ h)))))))))
  · exact List.mem_append_left _ (List.mem_append_left _ (List.mem_append_left _
      (List.mem_append_left _ (List.mem_append_left _ (List.mem_append_left _
      (List.mem_append_left _ (List.mem_append_left _ (List.mem_append_right _ h))))))))
  · exact List.mem_append_left _ (List.mem_append_left _ (List.mem_append_left _
      (List.mem_append_left _ (List.mem_append_left _ (List.mem_append_left _
      (List.mem_append_left _ (List.mem_append_right _ h)))))))
  · exact List.mem_append_left _ (List.mem_append_left _ (List.mem_append_left _
      (List.mem_append_left _ (List.mem_append_left _ (List.mem_append_left _
      (List.mem_append_right _ h))))))
  · exact List.mem_append_left _ (List.mem_append_left _ (List.mem_append_left _
      (List.mem_append_left _ (List.mem_append_left _ (List.mem_append_right _ h)))))
  · exact List.mem_append_left _ (List.mem_append_left _ (List.mem_append_left _
      (List.mem_append_left _ (List.mem_append_right _ h))))
  · exact List.mem_append_left _ (List.mem_append_left _ (List.mem_append_left _
      (List.mem_append_right _ h)))
  · exact List.mem_append_left _ (List.mem_append_left _ (List.mem_append_right _ h))
  · exact List.mem_append_left _ (List.mem_append_right _ h)
  · exact List.mem_append_right _ h

/-- C6: validation failure completeness and atomicity — a payload violating
any schema rule fails as a whole with 422 and the structured
`{error: "Validation Error", details: ...}` body, the stored user is
untouched, and the details name every violated field (each field whose own
check fails appears among the detail field names, never only the first):
for update patches, for password-change bodies, and for registration
payloads (whose route is absent from the sources; its schema's error list is
covered at the validation layer feeding `handle_validation_error`). -/
theorem validation_error_complete_atomic :
    (∀ (u : User) (r : RawUpdate) (t : Nat) (es : List FieldError),
      validateUpdate r = .error es →
      update_current_user u r t = (422, .validationError "Validation Error" es, u) ∧
      (checkOptStr "fullName" 1 (some 255) r.fullName ≠ [] →
        "fullName" ∈ es.map FieldError.field) ∧
      (checkOptSex "sex" r.sex ≠ [] → "sex" ∈ es.map FieldError.field) ∧
      (checkOptStr "phoneNumber" 0 (some 50) r.phoneNumber ≠ [] →
        "phoneNumber" ∈ es.map FieldError.field) ∧
      (checkOptStr "addressLine1" 1 (some 255) r.addressLine1 ≠ [] →
        "addressLine1" ∈ es.map FieldError.field) ∧
      (checkOptStr "addressLine2" 0 (some 255) r.addressLine2 ≠ [] →
        "addressLine2" ∈ es.map FieldError.field) ∧
      (checkOptStr "city" 1 (some 100) r.city ≠ [] → "city" ∈ es.map FieldError.field) ∧
      (checkOptStr "stateProvinceCode" 2 (some 2) r.stateProvinceCode ≠ [] →
        "stateProvinceCode" ∈ es.map FieldError.field) ∧
      (checkOptStr "countryCode" 2 (some 2) r.countryCode ≠ [] →
        "countryCode" ∈ es.map FieldError.field) ∧
      (checkOptStr "postalCode" 1 (some 20) r.postalCode ≠ [] →
        "postalCode" ∈ es.map FieldError.field)) ∧
    (∀ (u : User) (r : RawPasswordChange) (salt t : Nat) (es : List FieldError),
      validatePasswordChange r = .error es →
      change_password u r salt t = (422, .validationError "Validation Error" es, u) ∧
      (checkReqStr "currentPassword" 1 none r.currentPassword ≠ [] →
        "currentPassword" ∈ es.map FieldError.field) ∧
      (checkPassword "newPassword" r.newPassword ≠ [] →
        "newPassword" ∈ es.map FieldError.field)) ∧
    (∀ (r : RawRegister) (es : List FieldError),
      validateRegister r = .error es →
      (checkEmail r.email ≠ [] → "email" ∈ es.map FieldError.field) ∧
      (checkUsername r.username ≠ [] → "username" ∈ es.map FieldError.field) ∧
      (checkPassword "password" r.password ≠ [] → "password" ∈ es.map FieldError.field) ∧
      (checkReqStr "fullName" 1 (some 255) r.fullName ≠ [] →
        "fullName" ∈ es.map FieldError.field) ∧
      (checkReqSex "sex" r.sex ≠ [] → "sex" ∈ es.map FieldError.field) ∧
      (checkOptStr "phoneNumber" 0 (some 50) r.phoneNumber ≠ [] →
        "phoneNumber" ∈ es.map FieldError.field) ∧
      (checkReqStr "addressLine1" 1 (some 255) r.addressLine1 ≠ [] →
        "addressLine1" ∈ es.map FieldError.field) ∧
      (checkOptStr "addressLine2" 0 (some 255) r.addressLine2 ≠ [] →
        "addressLine2" ∈ es.map FieldError.field) ∧
      (checkReqStr "city" 1 (some 100) r.city ≠ [] → "city" ∈ es.map FieldError.field) ∧
      (checkReqStr "stateProvinceCode" 1 (some 10) r.stateProvinceCode ≠ [] →
        "stateProvinceCode" ∈ es.map FieldError.field) ∧
      (checkReqStr "countryCode" 2 (some 2) r.countryCode ≠ [] →
        "countryCode" ∈ es.map FieldError.field) ∧
      (checkReqStr "postalCode" 1 (some 20) r.postalCode ≠ [] →
        "postalCode" ∈ es.map FieldError.field)) := by
  refine ⟨?_, ?_, ?_⟩
  · intro u r t es h
    obtain ⟨hes, -⟩ := validateUpdate_err h
    subst hes
    refine ⟨update_route_err h, ?_, ?_, ?_, ?_, ?_, ?_, ?_, ?_, ?_⟩ <;> intro hne
    · refine mem_field_of_ne_nil ?_ (checkOptStr_field _ _ _ _) hne
      intro e he
      simp [updateErrors, List.mem_append]
      tauto
    · refine mem_field_of_ne_nil ?_ (checkOptSex_field _ _) hne
      intro e he
      simp [updateErrors, List.mem_append]
      tauto
    · refine mem_field_of_ne_nil ?_ (checkOptStr_field _ _ _ _) hne
      intro e he
      simp [updateErrors, List.mem_append]
      tauto
    · refine mem_field_of_ne_nil ?_ (checkOptStr_field _ _ _ _) hne
      intro e he
      simp [updateErrors, List.mem_append]
      tauto
    · refine mem_field_of_ne_nil ?_ (checkOptStr_field _ _ _ _) hne
      intro e he
      simp [updateErrors, List.mem_append]
      tauto
    · refine mem_field_of_ne_nil ?_ (checkOptStr_field _ _ _ _) hne
      intro e he
      simp [updateErrors, List.mem_append]
      tauto
    · refine mem_field_of_ne_nil ?_ (checkOptStr_field _ _ _ _) hne
      intro e he
      simp [updateErrors, List.mem_append]
      tauto
    · refine mem_field_of_ne_nil ?_ (checkOptStr_field _ _ _ _) hne
      intro e he
      simp [updateErrors, List.mem_append]
      tauto
    · refine mem_field_of_ne_nil ?_ (checkOptStr_field _ _ _ _) hne
      intro e he
      simp [updateErrors, List.mem_append]
      tauto
  · intro u r salt t es h
    obtain ⟨hes, -⟩ := validatePasswordChange_err h
    subst hes
    refine ⟨change_route_err h, ?_, ?_⟩ <;> intro hne
    · refine mem_field_of_ne_nil ?_ (checkReqStr_field _ _ _ _) hne
      intro e he
      simp [passwordChangeErrors, List.mem_append]
      tauto
    · refine mem_field_of_ne_nil ?_ (checkPassword_field _ _) hne
      intro e he
      simp [passwordChangeErrors, List.mem_append]
      tauto
  · intro r es h
    obtain ⟨hes, -⟩ := validateRegister_err h
    subst hes
    refine ⟨?_, ?_, ?_, ?_, ?_, ?_, ?_, ?_, ?_, ?_, ?_, ?_⟩ <;> intro hne
    · refine mem_field_of_ne_nil ?_ (checkEmail_field _) hne
      intro e he
      exact mem_registerErrors (Or.inl he)
    · refine mem_field_of_ne_nil ?_ (checkUsername_field _) hne
      intro e he
      exact mem_registerErrors (Or.inr (Or.inl he))
    · refine mem_field_of_ne_nil ?_ (checkPassword_field _ _) hne
      intro e he
      exact mem_registerErrors (Or.inr (Or.inr (Or.inl he)))
    · refine mem_field_of_ne_nil ?_ (checkReqStr_field _ _ _ _) hne
      intro e he
      exact mem_registerErrors (Or.inr (Or.inr (Or.inr (Or.inl he))))
    · refine mem_field_of_ne_nil ?_ (checkReqSex_field _ _) hne
      intro e he
      exact mem_registerErrors (Or.inr (Or.inr (Or.inr (Or.inr (Or.inl he)))))
    · refine mem_field_of_ne_nil ?_ (checkOptStr_field _ _ _ _) hne
      intro e he
      exact mem_registerErrors (Or.inr (Or.inr (Or.inr (Or.inr (Or.inr (Or.inl he))))))
    · refine mem_field_of_ne_nil ?_ (checkReqStr_field _ _ _ _) hne
      intro e he
      exact mem_registerErrors (Or.inr (Or.inr (Or.inr (Or.inr (Or.inr (Or.inr
        (Or.inl he)))))))
    · refine mem_field_of_ne_nil ?_ (checkOptStr_field _ _ _ _) hne
      intro e he
      exact mem_registerErrors (Or.inr (Or.inr (Or.inr (Or.inr (Or.inr (Or.inr
        (Or.inr (Or.inl he))))))))
    · refine mem_field_of_ne_nil ?_ (checkReqStr_field _ _ _ _) hne
      intro e he
      exact mem_registerErrors (Or.inr (Or.inr (Or.inr (Or.inr (Or.inr (Or.inr
        (Or.inr (Or.inr (Or.inl he)))))))))
    · refine mem_field_of_ne_nil ?_ (checkReqStr_field _ _ _ _) hne
      intro e he
      exact mem_registerErrors (Or.inr (Or.inr (Or.inr (Or.inr (Or.inr (Or.inr
        (Or.inr (Or.inr (Or.inr (Or.inl he))))))))))
    · refine mem_field_of_ne_nil ?_ (checkReqStr_field _ _ _ _) hne
      intro e he
      exact mem_registerErrors (Or.inr (Or.inr (Or.inr (Or.inr (Or.inr (Or.inr
        (Or.inr (Or.inr (Or.inr (Or.inr (Or.inl he)))))))))))
    · refine mem_field_of_ne_nil ?_ (checkReqStr_field _ _ _ _) hne
      intro e he
      exact mem_registerErrors (Or.inr (Or.inr (Or.inr (Or.inr (Or.inr (Or.inr
        (Or.inr (Or.inr (Or.inr (Or.inr (Or.inr he)))))))))))

/-- A patch violating two rules at once. -/
def rawTwoBad : RawUpdate :=
  { stateProvinceCode := some (some "INVALID")
    countryCode := some (some "USA") }

/-- A password-change body violating both of its fields at once. -/
def rawPwBothBad : RawPasswordChange :=
  { currentPassword := none
    newPassword := some (some "abc") }

/-- A registration payload violating the username and password rules at once. -/
def rawRegBad : RawRegister :=
  { rawRegCa with
    username := some (some "bad user")
    password := some (some "abcdefgh") }

theorem validation_error_complete_atomic_witness :
    (update_current_user demoUser rawTwoBad 200
      = (422, .validationError "Validation Error" (updateErrors rawTwoBad), demoUser) ∧
     "stateProvinceCode" ∈ (updateErrors rawTwoBad).map FieldError.field ∧
     "countryCode" ∈ (updateErrors rawTwoBad).map FieldError.field) ∧
    (change_password demoUser rawPwBothBad 5 200
      = (422, .validationError "Validation Error" (passwordChangeErrors rawPwBothBad),
         demoUser) ∧
     "currentPassword" ∈ (passwordChangeErrors rawPwBothBad).map FieldError.field ∧
     "newPassword" ∈ (passwordChangeErrors rawPwBothBad).map FieldError.field) ∧
    ("username" ∈ (registerErrors rawRegBad).map FieldError.field ∧
     "password" ∈ (registerErrors rawRegBad).map FieldError.field) := by
  obtain ⟨hu, hp, hg⟩ := validation_error_complete_atomic
  have h₁ := hu demoUser rawTwoBad 200 (updateErrors rawTwoBad) rfl
  have h₂ := hp demoUser rawPwBothBad 5 200 (passwordChangeErrors rawPwBothBad) rfl
  have h₃ := hg rawRegBad (registerErrors rawRegBad) rfl
  exact ⟨⟨h₁.1, h₁.2.2.2.2.2.2.2.1 (by decide), h₁.2.2.2.2.2.2.2.2.1 (by decide)⟩,
    ⟨h₂.1, h₂.2.1 (by decide), h₂.2.2 (by decide)⟩,
    h₃.2.1 (by decide), h₃.2.2.1 (by decide)⟩

/-! ## C8 -/

/-- C8: no secret in any response — every success body of
`GET /api/users/me` and `PUT /api/users/me` serializes exactly the fourteen
camelCase `UserResponseSchema` fields, contains no password key, and is
independent of the stored password hash. -/
theorem response_never_serializes_secret (u : User) :
    (dumpUser u).map Prod.fst
      = ["id", "email", "username", "fullName", "sex", "phoneNumber",
         "addressLine1", "addressLine2", "city", "stateProvinceCode",
         "countryCode", "postalCode", "createdAt", "updatedAt"] ∧
    (∀ h : BcryptHash, dumpUser { u with password_hash := h } = dumpUser u) ∧
    "password" ∉ (dumpUser u).map Prod.fst ∧
    "passwordHash" ∉ (dumpUser u).map Prod.fst ∧
    "password_hash" ∉ (dumpUser u).map Prod.fst ∧
    get_current_user u = (200, .okUser (dumpUser u)) ∧
    (∀ (r : RawUpdate) (t : Nat), (update_current_user u r t).1 = 200 →
        (update_current_user u r t).2.1
          = Resp.okUser (dumpUser (update_current_user u r t).2.2)) := by
  refine ⟨by simp [dumpUser], fun h => rfl, ?_, ?_, ?_, rfl, ?_⟩
  · simp [dumpUser]
  · simp [dumpUser]
  · simp [dumpUser]
  · intro r t hs
    cases hv : validateUpdate r with
    | error es =>
      rw [update_route_err hv] at hs
      simp at hs
    | ok b =>
      rw [update_route_ok hv]

theorem response_never_serializes_secret_witness :
    (dumpUser demoUser).map Prod.fst
      = ["id", "email", "username", "fullName", "sex", "phoneNumber",
         "addressLine1", "addressLine2", "city", "stateProvinceCode",
         "countryCode", "postalCode", "createdAt", "updatedAt"] ∧
    dumpUser { demoUser with password_hash := hashpw "other" 9 } = dumpUser demoUser ∧
    "password" ∉ (dumpUser demoUser).map Prod.fst ∧
    (update_current_user demoUser rawPartial 200).1 = 200 ∧
    (update_current_user demoUser rawPartial 200).2.1
      = Resp.okUser (dumpUser (update_current_user demoUser rawPartial 200).2.2) := by
  have h := response_never_serializes_secret demoUser
  exact ⟨h.1, h.2.1 (hashpw "other" 9), h.2.2.1, by decide,
    h.2.2.2.2.2.2 rawPartial 200 (by decide)⟩

end MealPlanner
